import Mathlib

/-!
Verification development for the roadmap-manager backend (rm_be).

This file gives a shallow embedding, in Lean 4, of the core data model and
operations of the `rm_be` Python package: the pointage-entry lifecycle
(`rm_be/api/routes.py`), the modification-request workflow, the
identity-resolution helper and week-key derivation (`rm_be/api/utils.py`),
the catalog merge (`merge_lc_items` in `routes.py`), and the document-level
update semantics of the repositories (`rm_be/database/repositories.py`).

Conventions of the embedding:
* Mongo ObjectIds are abstracted as `Nat`; the `ObjectId.is_valid` checks on
  raw string ids (which occur before any lookup or mutation) are outside the
  model. Document collections are association lists `List (Nat × α)`;
  `find_one` on an id is association lookup, `update_one` on an id replaces
  the first binding.
* Python `datetime.date` values are `Date` triples; `datetime.strptime(s,
  "%Y-%m-%d")` is `strptimeDate`, which fails (returns `none`) exactly on
  strings that are not a dash-separated numeric triple denoting a real
  calendar date. Timestamps (`datetime.utcnow()`) are abstract `Nat` instants
  supplied to each operation as a `now` argument; the bookkeeping fields
  `created_at` and `updated_at`, which no specified property mentions, are
  not modeled.
* `HTTPException(status_code, detail)` is the record `ApiError`; each raise
  site constructs the same code and detail string as the source. The spec
  taxonomy maps onto them as: 404 = NotFound, 403 = Forbidden, the 400 with
  detail "Cannot update submitted entry. It is locked." (and its delete
  analogue) = Locked, the remaining state-based 400s = Conflict, and the
  format 400s = InvalidInput.
* Each operation is a pure function from the store (plus arguments) to a
  pair of an `Except ApiError` result and the resulting store, so that a
  raise occurring after a database write is expressible as an error result
  paired with a mutated store.
-/

namespace RM

/-! ### Calendar arithmetic

Embedding of the `datetime.date` operations the source uses:
`date.weekday()` (Monday = 0), subtraction of a `timedelta` in days
(`routes.py` line 350), `date.year`, and `strftime("%V")` (ISO-8601 week
number). The day-number conversions follow the standard civil-calendar
algorithms; `daysFromCivil` counts days since 0000-03-01.
-/

structure Date where
  year : Nat
  month : Nat
  day : Nat
deriving DecidableEq, Repr

/-- Day number of a civil date, counted from 0000-03-01. -/
def daysFromCivil (d : Date) : Nat :=
  let y := if d.month ≤ 2 then d.year - 1 else d.year
  let era := y / 400
  let yoe := y % 400
  let mp := if d.month > 2 then d.month - 3 else d.month + 9
  let doy := (153 * mp + 2) / 5 + d.day - 1
  let doe := yoe * 365 + yoe / 4 - yoe / 100 + doy
  era * 146097 + doe

/-- Civil date of a day number (inverse of `daysFromCivil` on valid dates). -/
def civilFromDays (z : Nat) : Date :=
  let era := z / 146097
  let doe := z % 146097
  let yoe := (doe - doe / 1460 + doe / 36524 - doe / 146096) / 365
  let y := yoe + era * 400
  let doy := doe - (365 * yoe + yoe / 4 - yoe / 100)
  let mp := (5 * doy + 2) / 153
  let dd := doy - (153 * mp + 2) / 5 + 1
  let m := if mp < 10 then mp + 3 else mp - 9
  ⟨if m ≤ 2 then y + 1 else y, m, dd⟩

/-- Python `date.weekday()`: Monday = 0, ..., Sunday = 6. -/
def pyWeekday (d : Date) : Nat := (daysFromCivil d + 2) % 7

/-- `date_pointage_obj - timedelta(days=date_pointage_obj.weekday())`:
the Monday of the date's week (`routes.py` line 350). -/
def mondayOfWeek (d : Date) : Date :=
  civilFromDays (daysFromCivil d - pyWeekday d)

/-- 1-based ordinal of a date within its year. -/
def dayOfYear (d : Date) : Nat :=
  daysFromCivil d - daysFromCivil ⟨d.year, 1, 1⟩ + 1

/-- ISO-8601 week number, as produced by `strftime("%V")`: the week number of
the Thursday of the date's Monday-based week, in that Thursday's year. -/
def isoWeek (d : Date) : Nat :=
  let thursday := civilFromDays (daysFromCivil d + 3 - pyWeekday d)
  (dayOfYear thursday - 1) / 7 + 1

/-- ISO-8601 week-based year of a date (the year owning the date's ISO week).
Not computed by the source; used only to state which ISO year a produced
week number belongs to. -/
def isoYear (d : Date) : Nat :=
  (civilFromDays (daysFromCivil d + 3 - pyWeekday d)).year

/-- Zero-padded two-digit rendering, matching both the `:02d` format spec and
the zero-padded output of `strftime("%V")`. -/
def twoDigits (n : Nat) : String :=
  if n < 10 then "0" ++ toString n else toString n

/-- `get_cstr_semaine` (`utils.py` lines 92-108): `"S"` + last two digits of
`week_start_date.year` + the two-digit ISO week number of `week_start_date`. -/
def get_cstr_semaine (week_start_date : Date) : String :=
  let year := week_start_date.year
  let year_last_two := year % 100
  "S" ++ twoDigits year_last_two ++ twoDigits (isoWeek week_start_date)

/-- Week-key derivation at entry creation (`routes.py` lines 350-351):
the key of the Monday of `date_pointage`'s week. -/
def createWeekKey (date_pointage : Date) : String :=
  get_cstr_semaine (mondayOfWeek date_pointage)

/-! Sanity checks for the calendar embedding (known facts about the
Gregorian calendar). -/

example : daysFromCivil ⟨1970, 1, 1⟩ = 719468 := by decide
example : pyWeekday ⟨2024, 1, 15⟩ = 0 := by decide
example : pyWeekday ⟨2024, 12, 30⟩ = 0 := by decide
example : pyWeekday ⟨2024, 3, 4⟩ = 0 := by decide
example : civilFromDays (daysFromCivil ⟨2024, 12, 30⟩) = ⟨2024, 12, 30⟩ := by decide
example : isoWeek ⟨2024, 1, 15⟩ = 3 := by decide
example : isoWeek ⟨2024, 12, 30⟩ = 1 := by decide
example : isoYear ⟨2024, 12, 30⟩ = 2025 := by decide
example : mondayOfWeek ⟨2024, 1, 17⟩ = ⟨2024, 1, 15⟩ := by decide
example : createWeekKey ⟨2024, 1, 15⟩ = "S2403" := by decide
example : createWeekKey ⟨2024, 12, 30⟩ = "S2401" := by decide

/-! ### Date-string parsing

Embedding of `datetime.strptime(s, "%Y-%m-%d").date()` together with the
surrounding `try/except ValueError`: the result is `some` of the parsed date
on a dash-separated numeric triple denoting a real calendar date, `none`
(the `ValueError` case) otherwise. -/

def isLeapYear (y : Nat) : Bool :=
  (y % 4 == 0 && y % 100 != 0) || y % 400 == 0

def daysInMonth (y m : Nat) : Nat :=
  if m = 2 then (if isLeapYear y then 29 else 28)
  else if m = 4 ∨ m = 6 ∨ m = 9 ∨ m = 11 then 30
  else 31

/-- Split a character list at every dash, like Python `s.split("-")`. -/
def splitOnDash : List Char → List (List Char)
  | [] => [[]]
  | c :: rest =>
    let r := splitOnDash rest
    if c = '-' then [] :: r
    else
      match r with
      | [] => [[c]]
      | h :: t => (c :: h) :: t

/-- Read a nonempty all-digit character list as a number; `none` otherwise. -/
def digitsToNat (cs : List Char) : Option Nat :=
  if cs.length > 0 && cs.all Char.isDigit then
    some (cs.foldl (fun n c => n * 10 + (c.toNat - 48)) 0)
  else none

/-- `datetime.strptime(s, "%Y-%m-%d").date()` under `except ValueError`. -/
def strptimeDate (s : String) : Option Date :=
  match splitOnDash s.toList with
  | [ys, ms, ds] =>
    match digitsToNat ys, digitsToNat ms, digitsToNat ds with
    | some y, some m, some d =>
      if 1 ≤ y && y ≤ 9999 && 1 ≤ m && m ≤ 12 && 1 ≤ d && d ≤ daysInMonth y m
      then some ⟨y, m, d⟩ else none
    | _, _, _ => none
  | _ => none

example : strptimeDate "2024-03-04" = some ⟨2024, 3, 4⟩ := by decide
example : strptimeDate "yesterday" = none := by decide
example : strptimeDate "" = none := by decide
example : strptimeDate "2024-02-30" = none := by decide

/-! ### Errors

`HTTPException` as raised by the routes: a status code plus the detail
string, both verbatim from `routes.py` / `utils.py`. -/

structure ApiError where
  code : Nat
  detail : String
deriving DecidableEq, Repr

/-! ### Data model

Documents of the Mongo collections, with exactly the fields the specified
operations read or write. `PointageEntryData` and `PointageEntry` mirror the
Pydantic models of `database/models.py` (lines 126-173); optionality follows
the model declarations. The bookkeeping timestamps `created_at`/`updated_at`
and the `validated_by` audit string, which no specified property mentions,
are omitted. -/

structure PointageEntryData where
  date_pointage : Date
  cstr_semaine : Option String
  clef_imputation : Option String
  libelle : Option String
  fonction : Option String
  date_besoin : Option Date
  heures_theoriques : Option String
  heures_passees : Option String
  commentaires : Option String
deriving DecidableEq, Repr

structure PointageEntry where
  user_id : Nat
  entry_data : PointageEntryData
  status : String
  submitted_at : Option Nat
  validated_at : Option Nat
  is_deleted : Bool
  is_archived : Bool
deriving DecidableEq, Repr

/-- `PointageEntry(user_id=..., entry_data=..., status=...)` as constructed at
the routes' write sites: every other model field takes its declared default
(`submitted_at=None`, `validated_at=None`, `is_deleted=False`,
`is_archived=False`, `models.py` lines 158-168). -/
def mkPointageEntry (user_id : Nat) (entry_data : PointageEntryData)
    (status : String) : PointageEntry :=
  { user_id := user_id, entry_data := entry_data, status := status,
    submitted_at := none, validated_at := none,
    is_deleted := false, is_archived := false }

/-- `PointageEntryUpdate` (`api/schemas.py` lines 20-28): the update payload
and, via `ModificationRequestCreate.requested_data.model_dump()`, the shape of
a stored modification request's `requested_data`. All fields are required
strings except `commentaires`, the only `Optional` one; in the stored
`model_dump()` dict every key is therefore present, `commentaires` possibly
with value `None`. -/
structure PointageEntryUpdate where
  clef_imputation : String
  libelle : String
  fonction : String
  date_besoin : String
  heures_theoriques : String
  heures_passees : String
  commentaires : Option String
deriving DecidableEq, Repr

/-- Modelled from the spec: the `ModificationRequest` Pydantic model is
imported from `database/models.py` but its class definition is absent from
the sources; spec §3 describes it as referencing one entry and its owner,
carrying a `proposed_data` payload shaped like the entry's mutable fields, an
optional comment, a status in pending/approved/rejected and review metadata
(`reviewed_by`, `review_comment`, timestamp). Field values at the single
construction site (`routes.py` lines 740-746) and the raw `$set` updates of
the review route (lines 932-943) fix the field set used here; review
metadata starts unset and `is_deleted` defaults to false (the pending-request
query filters `is_deleted: $ne True`). -/
structure ModificationRequest where
  entry_id : Nat
  user_id : Nat
  requested_data : PointageEntryUpdate
  comment : Option String
  status : String
  reviewed_at : Option Nat
  reviewed_by : Option String
  review_comment : Option String
  is_deleted : Bool
deriving DecidableEq, Repr

/-- User documents of the `users` collection, with the fields the identity
resolver reads (`models.py` lines 56-70). -/
structure User where
  id : Nat
  name : String
  email : Option String
  user_type : String
  is_deleted : Bool
deriving DecidableEq, Repr

/-! ### The document store

Collections as association lists keyed by document id. `find_one` on an id is
`lookupById`; a Mongo `update_one({_id: i}, {$set: ...})` replaces the first
binding of `i` via `setById`. -/

def lookupById {α : Type} (l : List (Nat × α)) (i : Nat) : Option α :=
  match l with
  | [] => none
  | (j, a) :: t => if j = i then some a else lookupById t i

def setById {α : Type} (l : List (Nat × α)) (i : Nat) (a : α) : List (Nat × α) :=
  match l with
  | [] => []
  | (j, b) :: t => if j = i then (j, a) :: t else (j, b) :: setById t i a

structure Store where
  entries : List (Nat × PointageEntry)
  requests : List (Nat × ModificationRequest)
deriving DecidableEq, Repr

deriving instance DecidableEq for Except

/-- Outcome of an operation: the HTTP-level result paired with the store
after the call, so that a raise that happens after a database write shows up
as an error result paired with a mutated store. -/
def Outcome := Except ApiError Unit × Store

deriving instance DecidableEq for Outcome

/-! ### Entry lifecycle operations (`api/routes.py`) -/

/-- `update_pointage_entry` (`routes.py` lines 384-489). Guards in source
order: entry lookup (404), ownership via stringified-id comparison (403),
submitted lock (400 "locked"), `date_besoin` parse (400). The route then
rebuilds `PointageEntryData`: `date_pointage` and `cstr_semaine` are carried
over from the stored entry; the `... if ... is not None else ...` fallbacks
on the six schema-required string fields always take the request's value
(the schema admits no `None` there), while `commentaires`, the only optional
field, genuinely falls back to the stored value when absent. The
`existing_date_besoin` recomputation (lines 451-457) is dead: its guard
`not date_besoin_obj` is false because a parsed `date` object is always
truthy, so `date_besoin` is always the freshly parsed date.
`pointage_repo.update` then `$set`s the full model dump, i.e. replaces the
stored document's modeled fields with those of
`PointageEntry(user_id=user_id, entry_data=..., status=existing_status)`,
whose remaining fields are the model defaults. -/
def update_pointage_entry (s : Store) (callerId entryId : Nat)
    (u : PointageEntryUpdate) : Outcome :=
  match lookupById s.entries entryId with
  | none => (.error ⟨404, "Pointage entry not found"⟩, s)
  | some e =>
    if e.user_id ≠ callerId then
      (.error ⟨403, "You can only update your own entries"⟩, s)
    else if e.status = "submitted" then
      (.error ⟨400, "Cannot update submitted entry. It is locked."⟩, s)
    else
      match strptimeDate u.date_besoin with
      | none => (.error ⟨400, "Invalid date_besoin format. Use YYYY-MM-DD"⟩, s)
      | some date_besoin_obj =>
        let d := e.entry_data
        let updated_entry_data : PointageEntryData :=
          { date_pointage := d.date_pointage,
            cstr_semaine := d.cstr_semaine,
            clef_imputation := some u.clef_imputation,
            libelle := some u.libelle,
            fonction := some u.fonction,
            date_besoin := some date_besoin_obj,
            heures_theoriques := some u.heures_theoriques,
            heures_passees := some u.heures_passees,
            commentaires :=
              match u.commentaires with
              | some c => some c
              | none => d.commentaires }
        let updated_entry := mkPointageEntry callerId updated_entry_data e.status
        (.ok (), { s with entries := setById s.entries entryId updated_entry })

/-- `submit_pointage_entry` (`routes.py` lines 491-548): lookup (404),
ownership (403), already-submitted (400); then `pointage_repo.submit` does a
targeted `$set` of `status` and `submitted_at` only. -/
def submit_pointage_entry (s : Store) (callerId entryId : Nat) (now : Nat) :
    Outcome :=
  match lookupById s.entries entryId with
  | none => (.error ⟨404, "Pointage entry not found"⟩, s)
  | some e =>
    if e.user_id ≠ callerId then
      (.error ⟨403, "You can only submit your own entries"⟩, s)
    else if e.status = "submitted" then
      (.error ⟨400, "Entry is already submitted"⟩, s)
    else
      let e' : PointageEntry :=
        { e with status := "submitted", submitted_at := some now }
      (.ok (), { s with entries := setById s.entries entryId e' })

/-- `update_pointage_entry_status` (`routes.py` lines 550-621), the
responsible/admin status override (role gating happens in the
`RequireAdminOrResponsible` dependency before the handler body). The target
status must be `draft` or `submitted` (400 otherwise, checked before the
entry lookup); then a targeted `$set` updates `status`, stamping
`submitted_at` when the new status is `submitted` and clearing it when a
currently `submitted` entry moves to `draft`, leaving it untouched in every
other case. -/
def update_pointage_entry_status (s : Store) (entryId : Nat)
    (newStatus : String) (now : Nat) : Outcome :=
  if newStatus ≠ "draft" ∧ newStatus ≠ "submitted" then
    (.error ⟨400, "Invalid status. Must be either 'draft' or 'submitted'"⟩, s)
  else
    match lookupById s.entries entryId with
    | none => (.error ⟨404, "Pointage entry not found"⟩, s)
    | some e =>
      let submitted_at' : Option Nat :=
        if newStatus = "submitted" then some now
        else if e.status = "submitted" ∧ newStatus = "draft" then none
        else e.submitted_at
      let e' : PointageEntry :=
        { e with status := newStatus, submitted_at := submitted_at' }
      (.ok (), { s with entries := setById s.entries entryId e' })

/-- `delete_pointage_entry` (`routes.py` lines 623-676), the soft delete:
lookup (404), ownership (403, here by direct id comparison), submitted lock
(400 "locked"); then `mark_as_deleted` does a targeted `$set` of
`is_deleted`. -/
def delete_pointage_entry (s : Store) (callerId entryId : Nat) : Outcome :=
  match lookupById s.entries entryId with
  | none => (.error ⟨404, "Pointage entry not found"⟩, s)
  | some e =>
    if e.user_id ≠ callerId then
      (.error ⟨403, "You can only delete your own entries"⟩, s)
    else if e.status = "submitted" then
      (.error ⟨400, "Cannot delete submitted entry. It is locked."⟩, s)
    else
      let e' : PointageEntry := { e with is_deleted := true }
      (.ok (), { s with entries := setById s.entries entryId e' })

/-! ### Modification-request workflow (`api/routes.py`) -/

/-- The pending-request existence check of `create_modification_request`
(`routes.py` lines 726-732): `find_many` on
`entry_id = ... ∧ status = "pending" ∧ is_deleted ≠ true` is nonempty. -/
def hasPendingFor (s : Store) (entryId : Nat) : Bool :=
  s.requests.any fun p =>
    p.2.entry_id == entryId && p.2.status == "pending" && !p.2.is_deleted

/-- The request document inserted by `create_modification_request`
(`routes.py` lines 740-746): status `pending`, review metadata unset. -/
def mkPendingRequest (callerId entryId : Nat)
    (requested_data : PointageEntryUpdate) (comment : Option String) :
    ModificationRequest :=
  { entry_id := entryId, user_id := callerId,
    requested_data := requested_data, comment := comment,
    status := "pending", reviewed_at := none, reviewed_by := none,
    review_comment := none, is_deleted := false }

/-- `create_modification_request` (`routes.py` lines 678-758): entry lookup
(404), ownership via stringified-id comparison (403), entry must be
`submitted` (400), no pending request may exist for the entry (400); then a
new request document is inserted with status `pending`, the review metadata
unset, and a fresh id `newId`. -/
def create_modification_request (s : Store) (callerId entryId : Nat)
    (requested_data : PointageEntryUpdate) (comment : Option String)
    (newId : Nat) : Outcome :=
  match lookupById s.entries entryId with
  | none => (.error ⟨404, "Pointage entry not found"⟩, s)
  | some e =>
    if e.user_id ≠ callerId then
      (.error ⟨403, "You can only request modification for your own entries"⟩, s)
    else if e.status ≠ "submitted" then
      (.error ⟨400, "Can only request modification for submitted entries"⟩, s)
    else if hasPendingFor s entryId then
      (.error ⟨400, "A pending modification request already exists for this entry"⟩, s)
    else
      (.ok (), { s with requests :=
        s.requests ++ [(newId, mkPendingRequest callerId entryId requested_data comment)] })

/-- The `$set` applied to the request document by the review route
(`routes.py` lines 932-943): decision, review stamp, and the review comment
only when one was supplied and nonempty (`if review_data.review_comment:`). -/
def stampReview (r : ModificationRequest) (decision reviewerEmail : String)
    (review_comment : Option String) (now : Nat) : ModificationRequest :=
  { r with status := decision, reviewed_at := some now,
           reviewed_by := some reviewerEmail,
           review_comment :=
             match review_comment with
             | some c => if c ≠ "" then some c else r.review_comment
             | none => r.review_comment }

/-- The `date_besoin` resolution of the approval branch (`routes.py` lines
948-967): a nonempty proposed string must parse (else 400), an empty one
falls back to the entry's stored `date_besoin`, which must be present
(else 400). -/
def resolveDateBesoin (proposed : String) (current : Option Date) :
    Except ApiError Date :=
  if proposed ≠ "" then
    match strptimeDate proposed with
    | some d => .ok d
    | none => .error ⟨400, "Invalid date_besoin format in requested data"⟩
  else
    match current with
    | some d => .ok d
    | none => .error ⟨400, "Invalid date_besoin in existing entry"⟩

/-- `review_modification_request` (`routes.py` lines 873-1008). Guards in
source order: decision must be approved/rejected (400), request lookup (404),
request must still be pending (400), referenced entry lookup (404). The
request document is then updated (stamped with the decision) BEFORE the
approval branch runs; in that branch a malformed `date_besoin` in the stored
`requested_data` (400), or an absent `date_besoin` on both the proposal and
the entry (400), aborts after that write. On a fully successful approval the
entry is rewritten: `requested_data` carries every dumped key, so each
`requested_data.get(field, existing fallback)` yields the proposal's value —
including `commentaires`, whose stored value may be `None` — while an empty
`date_besoin` string falls back to the entry's stored date; the status is
forced to `draft` and `pointage_repo.update` replaces the document's modeled
fields (the non-passed model fields revert to their defaults). -/
def review_modification_request (s : Store) (reviewerEmail : String)
    (requestId : Nat) (decision : String) (review_comment : Option String)
    (now : Nat) : Outcome :=
  if decision ≠ "approved" ∧ decision ≠ "rejected" then
    (.error ⟨400, "Status must be 'approved' or 'rejected'"⟩, s)
  else
    match lookupById s.requests requestId with
    | none => (.error ⟨404, "Modification request not found"⟩, s)
    | some r =>
      if r.status ≠ "pending" then
        (.error ⟨400, "Request has already been reviewed"⟩, s)
      else
        match lookupById s.entries r.entry_id with
        | none => (.error ⟨404, "Pointage entry not found"⟩, s)
        | some e =>
          let requests₁ :=
            setById s.requests requestId
              (stampReview r decision reviewerEmail review_comment now)
          let s₁ : Store := { s with requests := requests₁ }
          if decision = "approved" then
            let rd := r.requested_data
            let ed := e.entry_data
            match resolveDateBesoin rd.date_besoin ed.date_besoin with
            | .error err => (.error err, s₁)
            | .ok date_besoin_obj =>
              let updated_entry_data : PointageEntryData :=
                { date_pointage := ed.date_pointage,
                  cstr_semaine := ed.cstr_semaine,
                  clef_imputation := some rd.clef_imputation,
                  libelle := some rd.libelle,
                  fonction := some rd.fonction,
                  date_besoin := some date_besoin_obj,
                  heures_theoriques := some rd.heures_theoriques,
                  heures_passees := some rd.heures_passees,
                  commentaires := rd.commentaires }
              let updated_entry := mkPointageEntry e.user_id updated_entry_data "draft"
              (.ok (), { s₁ with entries := setById s₁.entries r.entry_id updated_entry })
          else
            (.ok (), s₁)

/-! ### Identity resolution (`api/utils.py` lines 12-45) -/

/-- The authenticated principal payload (`current_user` dict): the keys the
resolver reads, each possibly missing. `user_id` is abstracted like every
other ObjectId, so the `ObjectId.is_valid` pre-check of the id branch is
outside the model. -/
structure Principal where
  email : Option String
  user_id : Option Nat
  name : Option String
deriving DecidableEq, Repr

/-- Python string truthiness of an optional payload value: present and
nonempty. -/
def truthyStr : Option String → Bool
  | some v => v ≠ ""
  | none => false

/-- Lower-casing, character by character (ASCII suffices for the embedding;
`str.lower()` / the case-insensitive regex of `find_by_name`). -/
def lowerString (v : String) : String :=
  ⟨v.data.map Char.toLower⟩

/-- `UserRepository.find_by_email` (`repositories.py` lines 169-171):
`find_one({"email": email.lower()})`, an exact match of the stored email
against the lower-cased query. -/
def find_by_email (users : List User) (email : String) : Option User :=
  users.find? fun u => u.email == some (lowerString email)

/-- `BaseRepository.find_by_id` as used on the `users` collection. -/
def find_by_id (users : List User) (i : Nat) : Option User :=
  users.find? fun u => u.id == i

/-- `UserRepository.find_by_name` (`repositories.py` lines 163-167):
case-insensitive whole-string match. -/
def find_by_name (users : List User) (name : String) : Option User :=
  users.find? fun u => lowerString u.name == lowerString name

/-- `get_db_user_from_current` (`utils.py` lines 12-45). The branch on
`email` / `user_id` selects by payload-key truthiness, not by lookup
success: when a (nonempty) email is present its lookup result is taken even
if empty, and the id branch is never consulted. The `name` lookup runs as a
fallback whenever the selected lookup produced nothing; a final miss is the
404. -/
def get_db_user_from_current (users : List User) (p : Principal) :
    Except ApiError User :=
  let byUserId : Option User :=
    match p.user_id with
    | some i => find_by_id users i
    | none => none
  let db0 : Option User :=
    match p.email with
    | some e => if e ≠ "" then find_by_email users e else byUserId
    | none => byUserId
  let db1 : Option User :=
    match db0 with
    | some u => some u
    | none => if truthyStr p.name then find_by_name users (p.name.getD "") else none
  match db1 with
  | some u => .ok u
  | none => .error ⟨404, "User not found in database"⟩

/-! ### Catalog merge (`merge_lc_items`, `routes.py` lines 1298-1376) -/

/-- An LC row as handled by the merge: the three reference fields plus the
per-row activation flag (`LCItemCreate` in `api/schemas.py`; existing rows
are read with `item.get(field, "")`, so a missing key is the empty string). -/
structure LCItemCreate where
  clef_imputation : String
  libelle : String
  fonction : String
  is_active : Bool
deriving DecidableEq, Repr

/-- The three accumulated per-field value sets
(`existing_clef_imputation` / `existing_libelle` / `existing_fonction`).
Only membership is ever consulted, so Python sets are lists here. -/
structure MergeSets where
  clef : List String
  lib : List String
  fonc : List String
deriving DecidableEq, Repr

/-- `if value: set.add(value)` — only truthy (nonempty) values enter a set. -/
def addIfNonempty (set : List String) (v : String) : List String :=
  if v ≠ "" then v :: set else set

/-- Add an item's three field values to the sets (the `add` calls at
`routes.py` lines 1348-1353, and, for existing rows, lines 1321-1330). -/
def addItemValues (sets : MergeSets) (i : LCItemCreate) : MergeSets :=
  { clef := addIfNonempty sets.clef i.clef_imputation,
    lib := addIfNonempty sets.lib i.libelle,
    fonc := addIfNonempty sets.fonc i.fonction }

/-- The duplicate test of the merge loop (`routes.py` lines 1336-1342): any
one of the item's three values is nonempty and already present in the
corresponding set; `in` on Python string sets is case-sensitive equality. -/
def isDuplicate (sets : MergeSets) (i : LCItemCreate) : Bool :=
  (i.clef_imputation != "" && sets.clef.contains i.clef_imputation) ||
  (i.libelle != "" && sets.lib.contains i.libelle) ||
  (i.fonction != "" && sets.fonc.contains i.fonction)

/-- Sets seeded from the target catalog's rows, only when
`remove_duplicates` is on (`routes.py` lines 1317-1330). -/
def initialSets (existing : List LCItemCreate) (remove_duplicates : Bool) :
    MergeSets :=
  if remove_duplicates then existing.foldl addItemValues ⟨[], [], []⟩
  else ⟨[], [], []⟩

/-- Loop state: the sets, the accepted rows (`new_items`, in order) and the
skip counter (`duplicates_count`). -/
structure MergeState where
  sets : MergeSets
  new_items : List LCItemCreate
  dups : Nat
deriving DecidableEq, Repr

/-- One iteration of the merge loop (`routes.py` lines 1334-1360): with
dedupe on, a duplicate row only bumps the counter; otherwise the row's
values feed the sets and the row is appended. -/
def mergeStep (remove_duplicates : Bool) (st : MergeState) (i : LCItemCreate) :
    MergeState :=
  if remove_duplicates && isDuplicate st.sets i then
    { st with dups := st.dups + 1 }
  else
    { sets := addItemValues st.sets i,
      new_items := st.new_items ++ [i],
      dups := st.dups }

/-- `merge_lc_items` on a resolved target catalog: the final loop state. The
route then appends each accepted row to the catalog (`add_item` pushes) and
returns `added = len(new_items)`, `duplicates_skipped = duplicates_count`,
`total_items = len(existing_items) + len(new_items)`. -/
def merge_lc_items (existing incoming : List LCItemCreate)
    (remove_duplicates : Bool) : MergeState :=
  incoming.foldl (mergeStep remove_duplicates)
    ⟨initialSets existing remove_duplicates, [], 0⟩

/-! ### Declarative companions used to state the claims -/

/-- The name-lookup fallback plus the final 404 of the identity resolver,
factored out to state its resolution order. -/
def nameFallback (users : List User) (name : Option String) :
    Except ApiError User :=
  match (if truthyStr name then find_by_name users (name.getD "") else none) with
  | some u => .ok u
  | none => .error ⟨404, "User not found in database"⟩

/-- Number of live pending modification requests for an entry. -/
def pendingCount (s : Store) (entryId : Nat) : Nat :=
  s.requests.countP fun p =>
    p.2.entry_id == entryId && p.2.status == "pending" && !p.2.is_deleted

/-- The spec invariant: at most one live pending request per entry. -/
def atMostOnePending (s : Store) : Prop :=
  ∀ entryId, pendingCount s entryId ≤ 1

/-- Declarative duplicate test for the catalog merge: one of the row's three
field values is nonempty and occurs (by case-sensitive string equality)
among the corresponding field values of `items`. -/
def fieldValueDup (items : List LCItemCreate) (i : LCItemCreate) : Bool :=
  (i.clef_imputation != "" && (items.map (·.clef_imputation)).contains i.clef_imputation) ||
  (i.libelle != "" && (items.map (·.libelle)).contains i.libelle) ||
  (i.fonction != "" && (items.map (·.fonction)).contains i.fonction)

/-- Declarative dedupe: a row is kept exactly when none of its nonempty field
values occurs among the target's rows together with the earlier kept rows of
the same merge. -/
def dedupedMerge (accepted : List LCItemCreate) :
    List LCItemCreate → List LCItemCreate
  | [] => []
  | i :: rest =>
    if fieldValueDup accepted i then dedupedMerge accepted rest
    else i :: dedupedMerge (accepted ++ [i]) rest

/-- Number of rows the declarative dedupe drops. -/
def dedupSkips (accepted : List LCItemCreate) : List LCItemCreate → Nat
  | [] => 0
  | i :: rest =>
    if fieldValueDup accepted i then dedupSkips accepted rest + 1
    else dedupSkips (accepted ++ [i]) rest

/-- The per-field value sets of a row list (the loop of `routes.py` lines
1321-1330 as a fold). -/
def valuesSets (items : List LCItemCreate) : MergeSets :=
  items.foldl addItemValues ⟨[], [], []⟩

/-! ### Concrete fixtures

Small concrete documents and stores used by counterexamples and witnesses. -/

def sampleData : PointageEntryData :=
  { date_pointage := ⟨2024, 3, 4⟩, cstr_semaine := some "S2410",
    clef_imputation := some "K1", libelle := some "L1", fonction := some "F1",
    date_besoin := some ⟨2024, 3, 8⟩, heures_theoriques := some "7",
    heures_passees := some "6", commentaires := some "keep" }

/-- A submitted entry owned by user 1. -/
def submittedEntry : PointageEntry :=
  { user_id := 1, entry_data := sampleData, status := "submitted",
    submitted_at := some 100, validated_at := none,
    is_deleted := false, is_archived := false }

/-- A draft entry owned by user 1. -/
def draftEntry : PointageEntry :=
  { submittedEntry with status := "draft", submitted_at := none }

def sampleUpdate : PointageEntryUpdate :=
  { clef_imputation := "K2", libelle := "L2", fonction := "F2",
    date_besoin := "2024-03-09", heures_theoriques := "8",
    heures_passees := "8", commentaires := none }

/-- A pending modification request for entry 1 whose proposal has an empty
`date_besoin` and no comment. -/
def pendingReq : ModificationRequest :=
  { entry_id := 1, user_id := 1,
    requested_data :=
      { clef_imputation := "K9", libelle := "L9", fonction := "F9",
        date_besoin := "", heures_theoriques := "9", heures_passees := "9",
        commentaires := none },
    comment := none, status := "pending", reviewed_at := none,
    reviewed_by := none, review_comment := none, is_deleted := false }

/-- A pending modification request for entry 1 whose proposal's
`date_besoin` is not a date. -/
def badDateReq : ModificationRequest :=
  { pendingReq with requested_data :=
      { pendingReq.requested_data with date_besoin := "not-a-date" } }

def storeSubmitted : Store := ⟨[(1, submittedEntry)], []⟩
def storeDraft : Store := ⟨[(1, draftEntry)], []⟩
def storeWithPending : Store := ⟨[(1, submittedEntry)], [(5, pendingReq)]⟩
def storeWithBadDateReq : Store := ⟨[(1, submittedEntry)], [(5, badDateReq)]⟩

def userA : User :=
  ⟨1, "alice", some "alice@example.com", "collaborator", false⟩
def userB : User :=
  ⟨2, "bob", some "bob@example.com", "collaborator", false⟩

/-! ## Shared lemmas -/

theorem lookupById_setById_self {α : Type} (l : List (Nat × α)) (i : Nat)
    (a b : α) (h : lookupById l i = some b) :
    lookupById (setById l i a) i = some a := by
  induction l with
  | nil => simp [lookupById] at h
  | cons hd tl ih =>
    obtain ⟨j, c⟩ := hd
    by_cases hji : j = i
    · subst hji
      simp [lookupById, setById]
    · simp [lookupById, setById, hji] at h ⊢
      exact ih h

/-! ## Claim C1 -/

/-- C1 counterexample: on a submitted entry, a caller who is not the owner
does not get the Locked error — they get the Forbidden error, because the
ownership guard runs before the lock guard. This refutes "fails with the
Locked error kind ... regardless of caller role (including the owner)". -/
theorem c1_counterexample :
    (update_pointage_entry storeSubmitted 2 1 sampleUpdate).1 =
      .error ⟨403, "You can only update your own entries"⟩ ∧
    (update_pointage_entry storeSubmitted 2 1 sampleUpdate).1 ≠
      .error ⟨400, "Cannot update submitted entry. It is locked."⟩ ∧
    submittedEntry.status = "submitted" ∧ submittedEntry.user_id ≠ 2 := by
  decide

/-- C1 (amended): for every entry whose status is "submitted", the update
operation fails and leaves the store unchanged for every caller; the error
is the Locked error (400, edit on a locked entry) when the caller is the
owner, and the Forbidden error (403) for any other caller. -/
theorem c1_submitted_update_always_fails (s : Store) (caller entryId : Nat)
    (u : PointageEntryUpdate) (e : PointageEntry)
    (hlook : lookupById s.entries entryId = some e)
    (hsub : e.status = "submitted") :
    (update_pointage_entry s caller entryId u).2 = s ∧
    (caller = e.user_id →
      (update_pointage_entry s caller entryId u).1 =
        .error ⟨400, "Cannot update submitted entry. It is locked."⟩) ∧
    (caller ≠ e.user_id →
      (update_pointage_entry s caller entryId u).1 =
        .error ⟨403, "You can only update your own entries"⟩) := by
  by_cases hc : e.user_id = caller
  · simp [update_pointage_entry, hlook, hc, hsub]
  · have hc' : caller ≠ e.user_id := fun h => hc h.symm
    simp [update_pointage_entry, hlook, hc, hc']

/-- C1 witness: the amended theorem applied to a concrete submitted entry
and its owner. -/
theorem c1_locked_witness :
    lookupById storeSubmitted.entries 1 = some submittedEntry ∧
    submittedEntry.status = "submitted" ∧
    ((update_pointage_entry storeSubmitted 1 1 sampleUpdate).2 = storeSubmitted ∧
     (1 = submittedEntry.user_id →
       (update_pointage_entry storeSubmitted 1 1 sampleUpdate).1 =
         .error ⟨400, "Cannot update submitted entry. It is locked."⟩) ∧
     (1 ≠ submittedEntry.user_id →
       (update_pointage_entry storeSubmitted 1 1 sampleUpdate).1 =
         .error ⟨403, "You can only update your own entries"⟩)) :=
  ⟨rfl, rfl,
    c1_submitted_update_always_fails storeSubmitted 1 1 sampleUpdate
      submittedEntry rfl rfl⟩

/-! ## Claim C4 -/

/-- C4: for an existing entry, the submit, update and softDelete operations
fail with the Forbidden error (403) and leave the store unchanged whenever
the caller is not the entry's owner, and each succeeds only when the caller
is the owner. -/
theorem c4_owner_only_mutations (s : Store) (caller entryId now : Nat)
    (u : PointageEntryUpdate) (e : PointageEntry)
    (hlook : lookupById s.entries entryId = some e) :
    (caller ≠ e.user_id →
      update_pointage_entry s caller entryId u =
        (.error ⟨403, "You can only update your own entries"⟩, s) ∧
      submit_pointage_entry s caller entryId now =
        (.error ⟨403, "You can only submit your own entries"⟩, s) ∧
      delete_pointage_entry s caller entryId =
        (.error ⟨403, "You can only delete your own entries"⟩, s)) ∧
    ((update_pointage_entry s caller entryId u).1 = .ok () → caller = e.user_id) ∧
    ((submit_pointage_entry s caller entryId now).1 = .ok () → caller = e.user_id) ∧
    ((delete_pointage_entry s caller entryId).1 = .ok () → caller = e.user_id) := by
  by_cases hc : e.user_id = caller
  · refine ⟨fun hne => absurd hc.symm hne, fun _ => hc.symm,
      fun _ => hc.symm, fun _ => hc.symm⟩
  · have hc' : caller ≠ e.user_id := fun h => hc h.symm
    refine ⟨fun _ => ⟨?_, ?_, ?_⟩, ?_, ?_, ?_⟩ <;>
      simp [update_pointage_entry, submit_pointage_entry,
            delete_pointage_entry, hlook, hc]

/-- C4 witness: a stranger (user 2) can neither update, submit nor delete
the entry owned by user 1. -/
theorem c4_owner_only_witness :
    lookupById storeDraft.entries 1 = some draftEntry ∧
    ((2 ≠ draftEntry.user_id →
      update_pointage_entry storeDraft 2 1 sampleUpdate =
        (.error ⟨403, "You can only update your own entries"⟩, storeDraft) ∧
      submit_pointage_entry storeDraft 2 1 200 =
        (.error ⟨403, "You can only submit your own entries"⟩, storeDraft) ∧
      delete_pointage_entry storeDraft 2 1 =
        (.error ⟨403, "You can only delete your own entries"⟩, storeDraft)) ∧
    ((update_pointage_entry storeDraft 2 1 sampleUpdate).1 = .ok () →
      2 = draftEntry.user_id) ∧
    ((submit_pointage_entry storeDraft 2 1 200).1 = .ok () →
      2 = draftEntry.user_id) ∧
    ((delete_pointage_entry storeDraft 2 1).1 = .ok () →
      2 = draftEntry.user_id)) :=
  ⟨rfl, c4_owner_only_mutations storeDraft 2 1 200 sampleUpdate draftEntry rfl⟩

/-! ## Claim C7 -/

/-- C7 counterexample: a successful update of a draft entry leaves the
stored status "draft"; it does not become "modified" (a value the model's
status pattern does not even admit). -/
theorem c7_counterexample :
    (update_pointage_entry storeDraft 1 1 sampleUpdate).1 = .ok () ∧
    (lookupById (update_pointage_entry storeDraft 1 1 sampleUpdate).2.entries 1).map
      (fun x => x.status) = some "draft" ∧
    draftEntry.status = "draft" ∧ some "draft" ≠ some "modified" := by
  decide

/-- C7 (amended): a successful update never changes the stored status — the
route writes back the entry's prior status verbatim; in particular a draft
entry stays "draft". -/
theorem c7_update_preserves_status (s : Store) (caller entryId : Nat)
    (u : PointageEntryUpdate) (e : PointageEntry)
    (hlook : lookupById s.entries entryId = some e)
    (hok : (update_pointage_entry s caller entryId u).1 = .ok ()) :
    (lookupById (update_pointage_entry s caller entryId u).2.entries entryId).map
      (fun x => x.status) = some e.status := by
  by_cases hown : e.user_id = caller
  · by_cases hsub : e.status = "submitted"
    · simp [update_pointage_entry, hlook, hown, hsub] at hok
    · cases hparse : strptimeDate u.date_besoin with
      | none => simp [update_pointage_entry, hlook, hown, hsub, hparse] at hok
      | some d =>
        simp only [update_pointage_entry, hlook, hown, hsub, hparse]
        simp only [ite_false, ne_eq, not_true_eq_false]
        rw [lookupById_setById_self s.entries entryId _ e hlook]
        rfl
  · simp [update_pointage_entry, hlook, hown] at hok

/-- C7 witness: the amended theorem applied to a concrete draft entry. -/
theorem c7_status_witness :
    lookupById storeDraft.entries 1 = some draftEntry ∧
    (update_pointage_entry storeDraft 1 1 sampleUpdate).1 = .ok () ∧
    (lookupById (update_pointage_entry storeDraft 1 1 sampleUpdate).2.entries 1).map
      (fun x => x.status) = some draftEntry.status :=
  ⟨rfl, rfl,
    c7_update_preserves_status storeDraft 1 1 sampleUpdate draftEntry rfl rfl⟩

/-! ## Claim C8 -/

/-- C8: the reviewer status override accepts only "draft" and "submitted" —
any other target, "validated" and "rejected" included, fails with the 400
and leaves the store untouched — a success presupposes a target in that
pair, and moving a currently submitted entry back to "draft" clears
`submitted_at`. -/
theorem c8_status_override (s : Store) (entryId : Nat) (newStatus : String)
    (now : Nat) :
    ((newStatus ≠ "draft" ∧ newStatus ≠ "submitted") →
      update_pointage_entry_status s entryId newStatus now =
        (.error ⟨400, "Invalid status. Must be either 'draft' or 'submitted'"⟩, s)) ∧
    (∀ e, lookupById s.entries entryId = some e →
      ((update_pointage_entry_status s entryId newStatus now).1 = .ok () →
        newStatus = "draft" ∨ newStatus = "submitted") ∧
      (e.status = "submitted" → newStatus = "draft" →
        (update_pointage_entry_status s entryId newStatus now).1 = .ok () ∧
        lookupById (update_pointage_entry_status s entryId newStatus now).2.entries
            entryId =
          some ({ e with status := "draft", submitted_at := none }))) := by
  constructor
  · intro h
    simp [update_pointage_entry_status, h.1, h.2]
  · intro e he
    constructor
    · intro hok
      by_cases hd : newStatus = "draft"
      · exact Or.inl hd
      · by_cases hs : newStatus = "submitted"
        · exact Or.inr hs
        · simp [update_pointage_entry_status, hd, hs] at hok
    · intro hsub hdraft
      subst hdraft
      have hset := lookupById_setById_self s.entries entryId
        ({ e with status := "draft", submitted_at := none }) e he
      constructor
      · simp [update_pointage_entry_status, he, hsub]
      · simp [update_pointage_entry_status, he, hsub, hset]

/-- C8 witness: the theorem applied to a concrete submitted entry, once with
the refused target "validated" and once with the accepted target "draft". -/
theorem c8_override_witness :
    ("validated" ≠ "draft" ∧ "validated" ≠ "submitted") ∧
    (update_pointage_entry_status storeSubmitted 1 "validated" 7 =
      (.error ⟨400, "Invalid status. Must be either 'draft' or 'submitted'"⟩,
       storeSubmitted)) ∧
    lookupById storeSubmitted.entries 1 = some submittedEntry ∧
    submittedEntry.status = "submitted" ∧
    ((update_pointage_entry_status storeSubmitted 1 "draft" 7).1 = .ok () ∧
     lookupById (update_pointage_entry_status storeSubmitted 1 "draft" 7).2.entries 1 =
       some ({ submittedEntry with status := "draft", submitted_at := none })) :=
  ⟨by decide,
   (c8_status_override storeSubmitted 1 "validated" 7).1 (by decide),
   rfl, rfl,
   ((c8_status_override storeSubmitted 1 "draft" 7).2 submittedEntry rfl).2 rfl rfl⟩

/-! ## Claim C5 -/

/-- C5: the week key is a deterministic function of `entry_date` — the
literal "S", the last two digits of the calendar year of the Monday of
`entry_date`'s week, and that Monday's two-digit ISO week number. For
2024-01-15, a Monday, the key is "S2403" (week 3 of 2024). For 2024-12-30
(itself a Monday) the ISO week number is 1 — the week belongs to ISO year
2025, the year-boundary case — and the produced key is "S2401", pairing
that week 1 with the Monday's calendar-year digits 24. -/
theorem c5_week_key_derivation (d : Date) :
    createWeekKey d =
      "S" ++ twoDigits ((mondayOfWeek d).year % 100) ++
        twoDigits (isoWeek (mondayOfWeek d)) ∧
    createWeekKey ⟨2024, 1, 15⟩ = "S2403" ∧
    createWeekKey ⟨2024, 1, 17⟩ = "S2403" ∧
    createWeekKey ⟨2024, 12, 30⟩ = "S2401" ∧
    mondayOfWeek ⟨2024, 12, 30⟩ = ⟨2024, 12, 30⟩ ∧
    isoWeek ⟨2024, 12, 30⟩ = 1 ∧ isoYear ⟨2024, 12, 30⟩ = 2025 := by
  refine ⟨rfl, ?_, ?_, ?_, ?_, ?_, ?_⟩ <;> decide

/-! ## Claim C6 -/

/-- C6 counterexample: the resolver does not try id before email. With a
principal carrying both an id (matching user A) and an email (matching user
B), it returns B, the email match; and with an email that matches nobody
plus an id that matches A, it fails 404 without ever consulting the id. -/
theorem c6_counterexample :
    get_db_user_from_current [userA, userB]
      ⟨some "bob@example.com", some 1, none⟩ = .ok userB ∧
    find_by_id [userA, userB] 1 = some userA ∧
    userB ≠ userA ∧
    get_db_user_from_current [userA, userB]
      ⟨some "nobody@example.com", some 1, none⟩ =
      .error ⟨404, "User not found in database"⟩ := by
  decide

/-- C6 (amended): the resolver's order is email → id → name. A nonempty
email selects the email lookup (the id is never consulted, even when the
email matches nothing); an absent or empty email selects the id lookup; the
name lookup only runs as a fallback when the selected lookup returned
nothing, and a final miss is the NotFound error. -/
theorem c6_resolution_order (users : List User) :
    (∀ email uid? name?, email ≠ "" →
      get_db_user_from_current users ⟨some email, uid?, name?⟩ =
        match find_by_email users email with
        | some u => .ok u
        | none => nameFallback users name?) ∧
    (∀ uid name?,
      get_db_user_from_current users ⟨none, some uid, name?⟩ =
        match find_by_id users uid with
        | some u => .ok u
        | none => nameFallback users name?) ∧
    (∀ uid? name?,
      get_db_user_from_current users ⟨some "", uid?, name?⟩ =
        get_db_user_from_current users ⟨none, uid?, name?⟩) ∧
    (∀ name?,
      get_db_user_from_current users ⟨none, none, name?⟩ =
        nameFallback users name?) := by
  refine ⟨?_, ?_, ?_, ?_⟩
  · intro email uid? name? hne
    cases hfe : find_by_email users email <;>
      simp [get_db_user_from_current, nameFallback, hne, hfe]
  · intro uid name?
    cases hfi : find_by_id users uid <;>
      simp [get_db_user_from_current, nameFallback, hfi]
  · intro uid? name?
    simp [get_db_user_from_current]
  · intro name?
    simp [get_db_user_from_current, nameFallback]

/-- C6 witness: the amended order theorem applied to the two-user store,
once through the email branch and once through the id branch. -/
theorem c6_order_witness :
    ("bob@example.com" ≠ "" ∧
     get_db_user_from_current [userA, userB]
        ⟨some "bob@example.com", some 1, none⟩ =
       match find_by_email [userA, userB] "bob@example.com" with
       | some u => .ok u
       | none => nameFallback [userA, userB] none) ∧
    get_db_user_from_current [userA, userB] ⟨none, some 1, none⟩ =
      match find_by_id [userA, userB] 1 with
      | some u => .ok u
      | none => nameFallback [userA, userB] none :=
  ⟨⟨by decide,
    (c6_resolution_order [userA, userB]).1 "bob@example.com" (some 1) none
      (by decide)⟩,
   (c6_resolution_order [userA, userB]).2.1 1 none⟩

/-! ## Claim C2 -/

/-- C2 counterexample: approving a request whose proposal's `commentaires`
is absent (stored as `None` by `model_dump()`) wipes the entry's existing
comment instead of keeping it: `dict.get` finds the key present with value
`None` and never reaches its fallback. This refutes "for every field absent
from the proposal keeps the entry's current value (it does not become
empty)". -/
theorem c2_counterexample :
    (review_modification_request storeWithPending "resp@example.com" 5
      "approved" none 7).1 = .ok () ∧
    submittedEntry.entry_data.commentaires = some "keep" ∧
    pendingReq.requested_data.commentaires = none ∧
    (lookupById (review_modification_request storeWithPending
        "resp@example.com" 5 "approved" none 7).2.entries 1).map
      (fun x => x.entry_data.commentaires) = some none := by
  decide

/-- C2 (amended): approving a pending request for an existing entry (with a
resolvable `date_besoin`) forces the entry's status to "draft" regardless of
its prior submitted state, keeps `date_pointage` and the week key, and
overwrites the mutable fields with the proposal's values: the six
schema-required fields always carry a proposed value, an empty proposed
`date_besoin` falls back to the entry's current date, and `commentaires` —
the only field that can be absent — is overwritten with the proposal's
possibly-absent value rather than preserved. The request itself is stamped
with the decision. -/
theorem c2_approval_semantics (s : Store) (reviewer : String) (rid : Nat)
    (rc : Option String) (now : Nat) (r : ModificationRequest)
    (e : PointageEntry) (db : Date)
    (hr : lookupById s.requests rid = some r)
    (hpend : r.status = "pending")
    (he : lookupById s.entries r.entry_id = some e)
    (hdb : resolveDateBesoin r.requested_data.date_besoin
        e.entry_data.date_besoin = .ok db) :
    (review_modification_request s reviewer rid "approved" rc now).1 = .ok () ∧
    lookupById (review_modification_request s reviewer rid "approved" rc
        now).2.entries r.entry_id =
      some (mkPointageEntry e.user_id
        { date_pointage := e.entry_data.date_pointage,
          cstr_semaine := e.entry_data.cstr_semaine,
          clef_imputation := some r.requested_data.clef_imputation,
          libelle := some r.requested_data.libelle,
          fonction := some r.requested_data.fonction,
          date_besoin := some db,
          heures_theoriques := some r.requested_data.heures_theoriques,
          heures_passees := some r.requested_data.heures_passees,
          commentaires := r.requested_data.commentaires } "draft") ∧
    lookupById (review_modification_request s reviewer rid "approved" rc
        now).2.requests rid =
      some (stampReview r "approved" reviewer rc now) := by
  have hsetE := lookupById_setById_self s.entries r.entry_id
    (mkPointageEntry e.user_id
      { date_pointage := e.entry_data.date_pointage,
        cstr_semaine := e.entry_data.cstr_semaine,
        clef_imputation := some r.requested_data.clef_imputation,
        libelle := some r.requested_data.libelle,
        fonction := some r.requested_data.fonction,
        date_besoin := some db,
        heures_theoriques := some r.requested_data.heures_theoriques,
        heures_passees := some r.requested_data.heures_passees,
        commentaires := r.requested_data.commentaires } "draft") e he
  have hsetR := lookupById_setById_self s.requests rid
    (stampReview r "approved" reviewer rc now) r hr
  simp [review_modification_request, hr, hpend, he, hdb, hsetE, hsetR]

/-- C2 witness: the amended theorem applied to the concrete pending request
(whose proposal has an empty `date_besoin`, resolving to the entry's stored
date) against the submitted entry. -/
theorem c2_approval_witness :
    lookupById storeWithPending.requests 5 = some pendingReq ∧
    pendingReq.status = "pending" ∧
    lookupById storeWithPending.entries pendingReq.entry_id =
      some submittedEntry ∧
    resolveDateBesoin pendingReq.requested_data.date_besoin
      submittedEntry.entry_data.date_besoin = .ok ⟨2024, 3, 8⟩ ∧
    ((review_modification_request storeWithPending "resp@example.com" 5
        "approved" none 7).1 = .ok () ∧
     lookupById (review_modification_request storeWithPending
         "resp@example.com" 5 "approved" none 7).2.entries
         pendingReq.entry_id =
       some (mkPointageEntry submittedEntry.user_id
         { date_pointage := submittedEntry.entry_data.date_pointage,
           cstr_semaine := submittedEntry.entry_data.cstr_semaine,
           clef_imputation := some pendingReq.requested_data.clef_imputation,
           libelle := some pendingReq.requested_data.libelle,
           fonction := some pendingReq.requested_data.fonction,
           date_besoin := some ⟨2024, 3, 8⟩,
           heures_theoriques := some pendingReq.requested_data.heures_theoriques,
           heures_passees := some pendingReq.requested_data.heures_passees,
           commentaires := pendingReq.requested_data.commentaires } "draft") ∧
     lookupById (review_modification_request storeWithPending
         "resp@example.com" 5 "approved" none 7).2.requests 5 =
       some (stampReview pendingReq "approved" "resp@example.com" none 7)) :=
  ⟨rfl, rfl, rfl, rfl,
   c2_approval_semantics storeWithPending "resp@example.com" 5 none 7
     pendingReq submittedEntry ⟨2024, 3, 8⟩ rfl rfl rfl rfl⟩

/-! ## Claim C3 -/

/-- Live pending requests for an entry are counted by `pendingCount`; when
the existence check of the propose route is negative the count is zero. -/
theorem pendingCount_eq_zero_of_not_hasPending (s : Store) (eid : Nat)
    (h : hasPendingFor s eid = false) : pendingCount s eid = 0 := by
  rw [pendingCount, List.countP_eq_zero]
  intro p hp hpred
  have hx : s.requests.any (fun p =>
      p.2.entry_id == eid && p.2.status == "pending" && !p.2.is_deleted) = true :=
    List.any_eq_true.mpr ⟨p, hp, hpred⟩
  rw [hasPendingFor] at h
  rw [h] at hx
  exact Bool.false_ne_true hx

/-- Inserting the pending request of a propose call raises the pending count
of its entry by one and keeps every other entry's count. -/
theorem pendingCount_insert (s : Store) (newId caller entryId : Nat)
    (rd : PointageEntryUpdate) (c : Option String) (eid : Nat) :
    pendingCount { s with requests :=
        s.requests ++ [(newId, mkPendingRequest caller entryId rd c)] } eid =
      pendingCount s eid + (if entryId = eid then 1 else 0) := by
  by_cases heid : entryId = eid <;>
    simp [pendingCount, List.countP_append, List.countP_cons,
      mkPendingRequest, heid]

/-- C3: propose requires ownership (403 otherwise), a submitted target
(state 400 otherwise), and no live pending request for the entry (conflict
400 otherwise); a success presupposes all three, and the at-most-one-pending
invariant is preserved by the operation. -/
theorem c3_propose_pending_invariant (s : Store) (caller entryId newId : Nat)
    (rd : PointageEntryUpdate) (c : Option String) (e : PointageEntry)
    (hlook : lookupById s.entries entryId = some e) :
    (caller ≠ e.user_id →
      create_modification_request s caller entryId rd c newId =
        (.error ⟨403, "You can only request modification for your own entries"⟩, s)) ∧
    (caller = e.user_id → e.status ≠ "submitted" →
      create_modification_request s caller entryId rd c newId =
        (.error ⟨400, "Can only request modification for submitted entries"⟩, s)) ∧
    (caller = e.user_id → e.status = "submitted" →
        hasPendingFor s entryId = true →
      create_modification_request s caller entryId rd c newId =
        (.error ⟨400, "A pending modification request already exists for this entry"⟩, s)) ∧
    ((create_modification_request s caller entryId rd c newId).1 = .ok () →
      caller = e.user_id ∧ e.status = "submitted" ∧
        hasPendingFor s entryId = false) ∧
    (atMostOnePending s →
      atMostOnePending (create_modification_request s caller entryId rd c newId).2) := by
  refine ⟨?_, ?_, ?_, ?_, ?_⟩
  · intro hne
    have hne' : e.user_id ≠ caller := fun h => hne h.symm
    simp [create_modification_request, hlook, hne']
  · intro hown hsub
    simp [create_modification_request, hlook, hown, hsub]
  · intro hown hsub hpf
    simp [create_modification_request, hlook, hown, hsub, hpf]
  · intro hok
    by_cases hown : e.user_id = caller
    · by_cases hsub : e.status = "submitted"
      · by_cases hpf : hasPendingFor s entryId
        · simp [create_modification_request, hlook, hown, hsub, hpf] at hok
        · exact ⟨hown.symm, hsub, by simpa using hpf⟩
      · simp [create_modification_request, hlook, hown, hsub] at hok
    · simp [create_modification_request, hlook, hown] at hok
  · intro hinv
    by_cases hown : e.user_id = caller
    · by_cases hsub : e.status = "submitted"
      · by_cases hpf : hasPendingFor s entryId
        · have hst : (create_modification_request s caller entryId rd c newId).2 = s := by
            simp [create_modification_request, hlook, hown, hsub, hpf]
          rw [hst]; exact hinv
        · have hst : (create_modification_request s caller entryId rd c newId).2 =
              { s with requests := s.requests ++
                [(newId, mkPendingRequest caller entryId rd c)] } := by
            simp [create_modification_request, hlook, hown, hsub, hpf]
          rw [hst]
          intro eid
          rw [pendingCount_insert]
          by_cases heid : entryId = eid
          · subst heid
            have h0 := pendingCount_eq_zero_of_not_hasPending s entryId
              (by simpa using hpf)
            simp [h0]
          · simp [heid]
            exact hinv eid
      · have hst : (create_modification_request s caller entryId rd c newId).2 = s := by
          simp [create_modification_request, hlook, hown, hsub]
        rw [hst]; exact hinv
    · have hst : (create_modification_request s caller entryId rd c newId).2 = s := by
        simp [create_modification_request, hlook, hown]
      rw [hst]; exact hinv

/-- C3 witness: the guard theorem applied to the concrete submitted entry:
a successful propose by the owner on a store without pending requests, and
the preserved invariant. -/
theorem c3_propose_witness :
    lookupById storeSubmitted.entries 1 = some submittedEntry ∧
    ((create_modification_request storeSubmitted 1 1 sampleUpdate none 9).1 =
        .ok () →
      1 = submittedEntry.user_id ∧ submittedEntry.status = "submitted" ∧
        hasPendingFor storeSubmitted 1 = false) ∧
    atMostOnePending
      (create_modification_request storeSubmitted 1 1 sampleUpdate none 9).2 :=
  ⟨rfl,
   (c3_propose_pending_invariant storeSubmitted 1 1 9 sampleUpdate none
     submittedEntry rfl).2.2.2.1,
   (c3_propose_pending_invariant storeSubmitted 1 1 9 sampleUpdate none
     submittedEntry rfl).2.2.2.2
     (fun eid => by simp [pendingCount, storeSubmitted])⟩

/-! ## Claim C9 -/

/-- C9 counterexample: reviewing (approving) a pending request whose stored
proposal carries a malformed `date_besoin` returns the InvalidInput error —
yet the store HAS changed: the request was stamped reviewed before the
approval payload was validated. This refutes "a call that returns an error
leaves the store unchanged". -/
theorem c9_counterexample :
    (review_modification_request storeWithBadDateReq "resp@example.com" 5
        "approved" none 7).1 =
      .error ⟨400, "Invalid date_besoin format in requested data"⟩ ∧
    (review_modification_request storeWithBadDateReq "resp@example.com" 5
        "approved" none 7).2 ≠ storeWithBadDateReq ∧
    (lookupById (review_modification_request storeWithBadDateReq
        "resp@example.com" 5 "approved" none 7).2.requests 5).map
      (fun r => r.status) = some "approved" := by
  decide

/-- C9 (amended): update, submit, softDelete, setStatus and propose run all
their guards before their single write, so any error from them leaves the
store unchanged; review alone stamps the request before validating the
approval payload's dates, so a failing review leaves every entry unchanged
and leaves the requests unchanged except in exactly that late case, where
the reviewed stamp on the target request is the only change. -/
theorem c9_guards_before_mutation :
    (∀ s caller entryId u err,
      (update_pointage_entry s caller entryId u).1 = .error err →
      (update_pointage_entry s caller entryId u).2 = s) ∧
    (∀ s caller entryId now err,
      (submit_pointage_entry s caller entryId now).1 = .error err →
      (submit_pointage_entry s caller entryId now).2 = s) ∧
    (∀ s caller entryId err,
      (delete_pointage_entry s caller entryId).1 = .error err →
      (delete_pointage_entry s caller entryId).2 = s) ∧
    (∀ s entryId ns now err,
      (update_pointage_entry_status s entryId ns now).1 = .error err →
      (update_pointage_entry_status s entryId ns now).2 = s) ∧
    (∀ s caller entryId rd c newId err,
      (create_modification_request s caller entryId rd c newId).1 = .error err →
      (create_modification_request s caller entryId rd c newId).2 = s) ∧
    (∀ s rev rid dec rc now err,
      (review_modification_request s rev rid dec rc now).1 = .error err →
      (review_modification_request s rev rid dec rc now).2.entries = s.entries ∧
      ((review_modification_request s rev rid dec rc now).2 = s ∨
       (dec = "approved" ∧ ∃ r, lookupById s.requests rid = some r ∧
         r.status = "pending" ∧
         (review_modification_request s rev rid dec rc now).2 =
           { s with requests :=
              setById s.requests rid (stampReview r dec rev rc now) }))) := by
  refine ⟨?_, ?_, ?_, ?_, ?_, ?_⟩
  · intro s caller entryId u err herr
    cases hlook : lookupById s.entries entryId with
    | none => simp [update_pointage_entry, hlook]
    | some e =>
      by_cases hown : e.user_id = caller
      · by_cases hsub : e.status = "submitted"
        · simp [update_pointage_entry, hlook, hown, hsub]
        · cases hparse : strptimeDate u.date_besoin with
          | none => simp [update_pointage_entry, hlook, hown, hsub, hparse]
          | some d =>
            simp [update_pointage_entry, hlook, hown, hsub, hparse] at herr
      · simp [update_pointage_entry, hlook, hown]
  · intro s caller entryId now err herr
    cases hlook : lookupById s.entries entryId with
    | none => simp [submit_pointage_entry, hlook]
    | some e =>
      by_cases hown : e.user_id = caller
      · by_cases hsub : e.status = "submitted"
        · simp [submit_pointage_entry, hlook, hown, hsub]
        · simp [submit_pointage_entry, hlook, hown, hsub] at herr
      · simp [submit_pointage_entry, hlook, hown]
  · intro s caller entryId err herr
    cases hlook : lookupById s.entries entryId with
    | none => simp [delete_pointage_entry, hlook]
    | some e =>
      by_cases hown : e.user_id = caller
      · by_cases hsub : e.status = "submitted"
        · simp [delete_pointage_entry, hlook, hown, hsub]
        · simp [delete_pointage_entry, hlook, hown, hsub] at herr
      · simp [delete_pointage_entry, hlook, hown]
  · intro s entryId ns now err herr
    by_cases hvalid : ns ≠ "draft" ∧ ns ≠ "submitted"
    · simp [update_pointage_entry_status, hvalid]
    · cases hlook : lookupById s.entries entryId with
      | none => simp [update_pointage_entry_status, hvalid, hlook]
      | some e => simp [update_pointage_entry_status, hvalid, hlook] at herr
  · intro s caller entryId rd c newId err herr
    cases hlook : lookupById s.entries entryId with
    | none => simp [create_modification_request, hlook]
    | some e =>
      by_cases hown : e.user_id = caller
      · by_cases hsub : e.status = "submitted"
        · by_cases hpf : hasPendingFor s entryId
          · simp [create_modification_request, hlook, hown, hsub, hpf]
          · simp [create_modification_request, hlook, hown, hsub, hpf] at herr
        · simp [create_modification_request, hlook, hown, hsub]
      · simp [create_modification_request, hlook, hown]
  · intro s rev rid dec rc now err herr
    by_cases hda : dec = "approved"
    · subst hda
      cases hr : lookupById s.requests rid with
      | none =>
        refine ⟨?_, Or.inl ?_⟩ <;> simp [review_modification_request, hr]
      | some r =>
        by_cases hpend : r.status = "pending"
        · cases he : lookupById s.entries r.entry_id with
          | none =>
            refine ⟨?_, Or.inl ?_⟩ <;>
              simp [review_modification_request, hr, hpend, he]
          | some e =>
            cases hdb : resolveDateBesoin r.requested_data.date_besoin
                e.entry_data.date_besoin with
            | error e2 =>
              refine ⟨?_, Or.inr ⟨rfl, r, rfl, hpend, ?_⟩⟩ <;>
                simp [review_modification_request, hr, hpend, he, hdb]
            | ok d =>
              simp [review_modification_request, hr, hpend, he, hdb] at herr
        · refine ⟨?_, Or.inl ?_⟩ <;>
            simp [review_modification_request, hr, hpend]
    · by_cases hdr : dec = "rejected"
      · subst hdr
        cases hr : lookupById s.requests rid with
        | none =>
          refine ⟨?_, Or.inl ?_⟩ <;> simp [review_modification_request, hr]
        | some r =>
          by_cases hpend : r.status = "pending"
          · cases he : lookupById s.entries r.entry_id with
            | none =>
              refine ⟨?_, Or.inl ?_⟩ <;>
                simp [review_modification_request, hr, hpend, he]
            | some e =>
              simp [review_modification_request, hr, hpend, he] at herr
          · refine ⟨?_, Or.inl ?_⟩ <;>
              simp [review_modification_request, hr, hpend]
      · refine ⟨?_, Or.inl ?_⟩ <;>
          simp [review_modification_request, hda, hdr]

/-- C9 witness: the amended theorem applied concretely — a forbidden update
leaves the store unchanged, and the failing approval of the bad-date request
changes nothing but the request's reviewed stamp. -/
theorem c9_guard_witness :
    ((update_pointage_entry storeSubmitted 2 1 sampleUpdate).1 =
        .error ⟨403, "You can only update your own entries"⟩ ∧
     (update_pointage_entry storeSubmitted 2 1 sampleUpdate).2 =
        storeSubmitted) ∧
    ((review_modification_request storeWithBadDateReq "resp@example.com" 5
        "approved" none 7).1 =
      .error ⟨400, "Invalid date_besoin format in requested data"⟩ ∧
     (review_modification_request storeWithBadDateReq "resp@example.com" 5
        "approved" none 7).2.entries = storeWithBadDateReq.entries ∧
     ((review_modification_request storeWithBadDateReq "resp@example.com" 5
         "approved" none 7).2 = storeWithBadDateReq ∨
      ("approved" = "approved" ∧ ∃ r,
        lookupById storeWithBadDateReq.requests 5 = some r ∧
        r.status = "pending" ∧
        (review_modification_request storeWithBadDateReq "resp@example.com" 5
            "approved" none 7).2 =
          Store.mk storeWithBadDateReq.entries
            (setById storeWithBadDateReq.requests 5
              (stampReview r "approved" "resp@example.com" none 7))))) :=
  ⟨⟨by decide,
    c9_guards_before_mutation.1 storeSubmitted 2 1 sampleUpdate
      ⟨403, "You can only update your own entries"⟩ (by decide)⟩,
   ⟨by decide,
    c9_guards_before_mutation.2.2.2.2.2 storeWithBadDateReq
      "resp@example.com" 5 "approved" none 7
      ⟨400, "Invalid date_besoin format in requested data"⟩ (by decide)⟩⟩

/-! ## Claim C10 -/

/-- Projections of the simultaneous set-building fold: the clef set. -/
theorem foldl_addItemValues_clef :
    ∀ (l : List LCItemCreate) (acc : MergeSets),
      (l.foldl addItemValues acc).clef =
        l.foldl (fun set it => addIfNonempty set it.clef_imputation) acc.clef := by
  intro l
  induction l with
  | nil => intro acc; rfl
  | cons hd tl ih =>
    intro acc
    rw [List.foldl_cons, List.foldl_cons, ih]
    rfl

/-- Projections of the simultaneous set-building fold: the libelle set. -/
theorem foldl_addItemValues_lib :
    ∀ (l : List LCItemCreate) (acc : MergeSets),
      (l.foldl addItemValues acc).lib =
        l.foldl (fun set it => addIfNonempty set it.libelle) acc.lib := by
  intro l
  induction l with
  | nil => intro acc; rfl
  | cons hd tl ih =>
    intro acc
    rw [List.foldl_cons, List.foldl_cons, ih]
    rfl

/-- Projections of the simultaneous set-building fold: the fonction set. -/
theorem foldl_addItemValues_fonc :
    ∀ (l : List LCItemCreate) (acc : MergeSets),
      (l.foldl addItemValues acc).fonc =
        l.foldl (fun set it => addIfNonempty set it.fonction) acc.fonc := by
  intro l
  induction l with
  | nil => intro acc; rfl
  | cons hd tl ih =>
    intro acc
    rw [List.foldl_cons, List.foldl_cons, ih]
    rfl

/-- A nonempty value is in a truthiness-guarded accumulation set exactly when
it is in the seed or among the accumulated field values. -/
theorem mem_foldl_addIfNonempty (f : LCItemCreate → String) (v : String)
    (hv : v ≠ "") :
    ∀ (l : List LCItemCreate) (acc : List String),
      (v ∈ l.foldl (fun set it => addIfNonempty set (f it)) acc ↔
        v ∈ acc ∨ v ∈ l.map f) := by
  intro l
  induction l with
  | nil => intro acc; simp
  | cons hd tl ih =>
    intro acc
    rw [List.foldl_cons, ih]
    by_cases hhd : f hd = ""
    · simp [addIfNonempty, hhd, hv]
    · simp only [addIfNonempty, List.map_cons, List.mem_cons]
      rw [if_pos hhd]
      simp only [List.mem_cons]
      tauto

/-- Membership in the accumulated clef set of a row list. -/
theorem mem_valuesSets_clef (items : List LCItemCreate) (v : String)
    (hv : v ≠ "") :
    v ∈ (valuesSets items).clef ↔
      v ∈ items.map (fun it => it.clef_imputation) := by
  rw [valuesSets, foldl_addItemValues_clef items ⟨[], [], []⟩]
  simpa using mem_foldl_addIfNonempty (fun it => it.clef_imputation) v hv items []

/-- Membership in the accumulated libelle set of a row list. -/
theorem mem_valuesSets_lib (items : List LCItemCreate) (v : String)
    (hv : v ≠ "") :
    v ∈ (valuesSets items).lib ↔ v ∈ items.map (fun it => it.libelle) := by
  rw [valuesSets, foldl_addItemValues_lib items ⟨[], [], []⟩]
  simpa using mem_foldl_addIfNonempty (fun it => it.libelle) v hv items []

/-- Membership in the accumulated fonction set of a row list. -/
theorem mem_valuesSets_fonc (items : List LCItemCreate) (v : String)
    (hv : v ≠ "") :
    v ∈ (valuesSets items).fonc ↔ v ∈ items.map (fun it => it.fonction) := by
  rw [valuesSets, foldl_addItemValues_fonc items ⟨[], [], []⟩]
  simpa using mem_foldl_addIfNonempty (fun it => it.fonction) v hv items []

/-- The imperative duplicate test over the accumulated sets agrees with the
declarative one over the rows those sets were built from. -/
theorem isDuplicate_valuesSets (items : List LCItemCreate) (i : LCItemCreate) :
    isDuplicate (valuesSets items) i = fieldValueDup items i := by
  apply Bool.eq_iff_iff.mpr
  simp only [isDuplicate, fieldValueDup, Bool.or_eq_true, Bool.and_eq_true,
    bne_iff_ne, ne_eq, List.contains, List.elem_iff]
  constructor
  · rintro ((⟨hne, hmem⟩ | ⟨hne, hmem⟩) | ⟨hne, hmem⟩)
    · exact Or.inl (Or.inl ⟨hne, (mem_valuesSets_clef items _ hne).mp hmem⟩)
    · exact Or.inl (Or.inr ⟨hne, (mem_valuesSets_lib items _ hne).mp hmem⟩)
    · exact Or.inr ⟨hne, (mem_valuesSets_fonc items _ hne).mp hmem⟩
  · rintro ((⟨hne, hmem⟩ | ⟨hne, hmem⟩) | ⟨hne, hmem⟩)
    · exact Or.inl (Or.inl ⟨hne, (mem_valuesSets_clef items _ hne).mpr hmem⟩)
    · exact Or.inl (Or.inr ⟨hne, (mem_valuesSets_lib items _ hne).mpr hmem⟩)
    · exact Or.inr ⟨hne, (mem_valuesSets_fonc items _ hne).mpr hmem⟩

/-- Appending one row to the rows a value-set is built from is one
application of `addItemValues`. -/
theorem valuesSets_append (items : List LCItemCreate) (i : LCItemCreate) :
    valuesSets (items ++ [i]) = addItemValues (valuesSets items) i := by
  simp [valuesSets, List.foldl_append]

/-- The merge loop with dedupe on computes the declarative dedupe: starting
from the value sets of the rows in `acc`, it accepts `dedupedMerge acc
incoming` in order and counts `dedupSkips acc incoming` duplicates. -/
theorem merge_foldl_spec :
    ∀ (incoming acc ni : List LCItemCreate) (dcount : Nat),
      incoming.foldl (mergeStep true) ⟨valuesSets acc, ni, dcount⟩ =
        ⟨valuesSets (acc ++ dedupedMerge acc incoming),
         ni ++ dedupedMerge acc incoming,
         dcount + dedupSkips acc incoming⟩ := by
  intro incoming
  induction incoming with
  | nil => intro acc ni d; simp [dedupedMerge, dedupSkips]
  | cons i rest ih =>
    intro acc ni d
    rw [List.foldl_cons]
    by_cases hf : fieldValueDup acc i = true
    · have hstep : mergeStep true ⟨valuesSets acc, ni, d⟩ i =
          ⟨valuesSets acc, ni, d + 1⟩ := by
        simp [mergeStep, isDuplicate_valuesSets, hf]
      rw [hstep, ih acc ni (d + 1)]
      simp only [dedupedMerge, dedupSkips, hf, if_true, MergeState.mk.injEq,
        true_and]
      omega
    · have hstep : mergeStep true ⟨valuesSets acc, ni, d⟩ i =
          ⟨valuesSets (acc ++ [i]), ni ++ [i], d⟩ := by
        simp [mergeStep, isDuplicate_valuesSets, hf, valuesSets_append]
      rw [hstep, ih (acc ++ [i]) (ni ++ [i]) d]
      simp only [dedupedMerge, dedupSkips, hf, if_false, MergeState.mk.injEq,
        Bool.false_eq_true, List.append_assoc, List.singleton_append]

/-- The declarative dedupe partitions the incoming rows. -/
theorem dedupedMerge_length :
    ∀ (incoming acc : List LCItemCreate),
      (dedupedMerge acc incoming).length + dedupSkips acc incoming =
        incoming.length := by
  intro incoming
  induction incoming with
  | nil => intro acc; simp [dedupedMerge, dedupSkips]
  | cons i rest ih =>
    intro acc
    by_cases hf : fieldValueDup acc i = true
    · simp only [dedupedMerge, dedupSkips, hf, if_true, List.length_cons]
      have := ih acc
      omega
    · simp only [dedupedMerge, dedupSkips, hf, if_false, Bool.false_eq_true,
        List.length_cons]
      have := ih (acc ++ [i])
      omega

/-- C10: with dedupe on, the merge accepts exactly the declaratively deduped
rows — a row is dropped precisely when one of its nonempty field values
already occurs, by case-sensitive string equality, among the same field's
values of the target's rows plus the earlier accepted rows of this merge —
and the returned added/skipped counts are the accepted-row count and its
complement. Concrete conjuncts: a row whose label already occurs is skipped
even though its key and function differ; a row colliding only with an
earlier accepted row of the same merge is skipped; a differently-cased value
is not a duplicate. -/
theorem c10_merge_dedupe_characterization
    (existing incoming : List LCItemCreate) :
    (merge_lc_items existing incoming true).new_items =
      dedupedMerge existing incoming ∧
    (merge_lc_items existing incoming true).dups =
      dedupSkips existing incoming ∧
    (merge_lc_items existing incoming true).new_items.length +
      (merge_lc_items existing incoming true).dups = incoming.length ∧
    (merge_lc_items [⟨"B", "X", "G", true⟩] [⟨"A", "X", "F", true⟩]
      true).new_items = [] ∧
    (merge_lc_items [⟨"B", "X", "G", true⟩] [⟨"A", "X", "F", true⟩]
      true).dups = 1 ∧
    (merge_lc_items [] [⟨"A", "X", "F", true⟩, ⟨"A", "Y", "G", true⟩]
      true).new_items = [⟨"A", "X", "F", true⟩] ∧
    (merge_lc_items [] [⟨"A", "X", "F", true⟩, ⟨"A", "Y", "G", true⟩]
      true).dups = 1 ∧
    (merge_lc_items [⟨"B", "x", "G", true⟩] [⟨"A", "X", "F", true⟩]
      true).dups = 0 := by
  have hinit : initialSets existing true = valuesSets existing := by
    simp [initialSets, valuesSets]
  have hrun : merge_lc_items existing incoming true =
      ⟨valuesSets (existing ++ dedupedMerge existing incoming),
       dedupedMerge existing incoming,
       0 + dedupSkips existing incoming⟩ := by
    rw [merge_lc_items, hinit]
    exact merge_foldl_spec incoming existing [] 0
  refine ⟨?_, ?_, ?_, ?_, ?_, ?_, ?_, ?_⟩
  · rw [hrun]
  · rw [hrun]
    simp
  · rw [hrun]
    simpa using dedupedMerge_length incoming existing
  · decide
  · decide
  · decide
  · decide
  · decide

end RM
